import Mathlib

/-!
Shallow embedding of `src/pebble-app/src/c-legacy/main.c` — the protocol /
state-reconciliation engine of the pebble-iCloud watch app.  The inbound
message handler `inbox_received_callback`, the request builders
`send_*_request`, and `load_settings` are translated directly from the C
source; machine `int32` values are modelled as `Int` (no arithmetic is
performed on them, only comparisons), C string buffers of size `n` are
modelled as strings truncated to `n - 1` characters (the semantics of
`snprintf(dst, n, "%s", src)` / `persist_read_string`), and UI / persistence
side effects are modelled as an explicit list of emitted effects.
-/

namespace PebbleICloud

/-- Protocol command tags (`#define CMD_*` in main.c). -/
def CMD_LOGIN : Int := 1

def CMD_GET_LISTS : Int := 2

def CMD_GET_REMINDERS : Int := 3

def CMD_COMPLETE_REMINDER : Int := 4

/-- Status codes (`#define STATUS_*`). -/
def STATUS_SUCCESS : Int := 1

def STATUS_ERROR : Int := 0

/-- Table capacities (`#define MAX_LISTS`, `#define MAX_REMINDERS`). -/
def MAX_LISTS : Int := 20

def MAX_REMINDERS : Int := 50

/-- `snprintf(dst, n+1, "%s", src)` stores at most `n` characters of `src`
(the buffer holds `n+1` bytes, one reserved for the terminating NUL). -/
def truncate (n : Nat) (s : String) : String := String.mk (s.data.take n)

/-- A `ReminderList` entry: `char id[64]; char title[64];`. -/
structure ReminderList where
  id : String
  title : String
deriving DecidableEq

/-- A `Reminder` entry: `char id[64]; char title[128]; char list_id[64]; bool completed;`. -/
structure Reminder where
  id : String
  title : String
  list_id : String
  completed : Bool
deriving DecidableEq

/-- A decoded inbound field set (the `DictionaryIterator` of
`inbox_received_callback`): each protocol key is either absent or carries a
value.  Field names follow the `KEY_*` enumeration of main.c. -/
structure InMessage where
  cmd : Option Int := none
  status : Option Int := none
  error : Option String := none
  token : Option String := none
  count : Option Int := none
  index : Option Int := none
  list_id : Option String := none
  list_title : Option String := none
  reminder_id : Option String := none
  reminder_title : Option String := none
  completed : Option Int := none
deriving DecidableEq

/-- An outgoing field set written by the `send_*_request` functions. -/
structure OutMessage where
  cmd : Option Int := none
  username : Option String := none
  apple_id : Option String := none
  apple_password : Option String := none
  token : Option String := none
  list_id : Option String := none
  reminder_id : Option String := none
deriving DecidableEq

/-- The mutable global state of main.c that the reconciler touches.  The
fixed C arrays `s_lists[MAX_LISTS]` / `s_reminders[MAX_REMINDERS]` are
modelled as total maps on `Int` so that the source's array writes are
representable at any index the code actually uses (the valid slot ranges
are `0 ≤ i < MAX_LISTS` and `0 ≤ i < MAX_REMINDERS`; a write outside that
range corresponds to an out-of-bounds array access in the C program).
`s_reminders_window` models whether the reminders window pointer is
non-NULL. -/
structure AppState where
  s_token : String
  s_username : String
  s_apple_id : String
  s_apple_password : String
  s_is_logged_in : Bool
  s_lists : Int → ReminderList
  s_list_count : Int
  s_reminders : Int → Reminder
  s_reminder_count : Int
  s_current_list_index : Int
  s_current_reminder_index : Int
  s_reminders_window : Bool

/-- Side effects performed by the handler besides mutating `AppState`:
logging, the error dialog window, settings persistence, window-stack
operations, menu reloads, and outgoing messages. -/
inductive Effect where
  | logError (msg : String)
  | showErrorDialog (text : String)
  | saveSettings
  | removeSettingsWindow
  | removeDetailWindow
  | reloadListsMenu
  | reloadRemindersMenu
  | send (msg : OutMessage)
deriving DecidableEq

/-- `send_login_request`: stamps `CMD_LOGIN` plus the three credential
fields. -/
def send_login_request (username apple_id apple_password : String) : OutMessage :=
  { cmd := some CMD_LOGIN, username := some username, apple_id := some apple_id,
    apple_password := some apple_password }

/-- `send_get_lists_request`: stamps `CMD_GET_LISTS` plus the token. -/
def send_get_lists_request (token : String) : OutMessage :=
  { cmd := some CMD_GET_LISTS, token := some token }

/-- `send_get_reminders_request`: stamps `CMD_GET_REMINDERS` plus the token
and the list identifier. -/
def send_get_reminders_request (token list_id : String) : OutMessage :=
  { cmd := some CMD_GET_REMINDERS, token := some token, list_id := some list_id }

/-- `send_complete_reminder_request`: stamps `CMD_COMPLETE_REMINDER` plus the
token, the list identifier and the reminder identifier. -/
def send_complete_reminder_request (token list_id reminder_id : String) : OutMessage :=
  { cmd := some CMD_COMPLETE_REMINDER, token := some token, list_id := some list_id,
    reminder_id := some reminder_id }

/-- The `switch (cmd)` block of `inbox_received_callback` (main.c lines
147–209).  Reached only when a command field is present and the (possibly
defaulted) status is not `STATUS_ERROR`. -/
def command_step (s : AppState) (m : InMessage) (cmd status : Int) :
    AppState × List Effect :=
  if cmd = CMD_LOGIN then
    match m.token with
    | some tok =>
      let s1 := { s with s_token := truncate 255 tok, s_is_logged_in := true }
      (s1, [Effect.saveSettings, Effect.removeSettingsWindow,
            Effect.send (send_get_lists_request s1.s_token)])
    | none => (s, [])
  else if cmd = CMD_GET_LISTS then
    match m.count with
    | some c =>
      ({ s with s_list_count := if c > MAX_LISTS then MAX_LISTS else c },
       [Effect.reloadListsMenu])
    | none => (s, [])
  else if cmd = CMD_GET_REMINDERS then
    match m.count with
    | some c =>
      ({ s with s_reminder_count := if c > MAX_REMINDERS then MAX_REMINDERS else c },
       if s.s_reminders_window then [Effect.reloadRemindersMenu] else [])
    | none => (s, [])
  else if cmd = CMD_COMPLETE_REMINDER then
    if status = STATUS_SUCCESS then
      let s1 :=
        if 0 ≤ s.s_current_reminder_index ∧
            s.s_current_reminder_index < s.s_reminder_count then
          { s with s_reminders := fun j =>
              if j = s.s_current_reminder_index then
                { s.s_reminders j with completed := true }
              else s.s_reminders j }
        else s
      (s1, [Effect.removeDetailWindow, Effect.reloadRemindersMenu])
    else (s, [])
  else (s, [])

/-- The fragment block of `inbox_received_callback` (main.c lines 211–241):
if a slot-index field is present, a list payload (id + title, `index <
MAX_LISTS`) writes the lists table, else a reminder payload (id + title,
`index < MAX_REMINDERS`) writes the reminders table; `list_id` of a
reminder slot is overwritten only when the field is present, `completed`
defaults to 0.  The source checks only the upper bound on `index`. -/
def fragment_step (s : AppState) (m : InMessage) : AppState × List Effect :=
  match m.index with
  | none => (s, [])
  | some index =>
    if m.list_id.isSome ∧ m.list_title.isSome ∧ index < MAX_LISTS then
      ({ s with s_lists := fun j =>
          if j = index then
            { id := truncate 63 (m.list_id.getD ""),
              title := truncate 63 (m.list_title.getD "") }
          else s.s_lists j },
       [Effect.reloadListsMenu])
    else if m.reminder_id.isSome ∧ m.reminder_title.isSome ∧ index < MAX_REMINDERS then
      ({ s with s_reminders := fun j =>
          if j = index then
            { id := truncate 63 (m.reminder_id.getD ""),
              title := truncate 127 (m.reminder_title.getD ""),
              list_id := match m.list_id with
                         | some l => truncate 63 l
                         | none => (s.s_reminders index).list_id,
              completed := m.completed.getD 0 != 0 }
          else s.s_reminders j },
       if s.s_reminders_window then [Effect.reloadRemindersMenu] else [])
    else (s, [])

/-- `inbox_received_callback` (main.c lines 114–242): return immediately if
no command field is present; default a missing status to `STATUS_ERROR`;
on error status surface the error text (default "Unknown error") and stop;
otherwise run the command switch and then, independently, the fragment
block. -/
def inbox_received_callback (s : AppState) (m : InMessage) :
    AppState × List Effect :=
  match m.cmd with
  | none => (s, [])
  | some cmd =>
    let status := m.status.getD STATUS_ERROR
    if status = STATUS_ERROR then
      let error := m.error.getD "Unknown error"
      (s, [Effect.logError error,
           Effect.showErrorDialog (truncate 127 ("Error: " ++ error))])
    else
      let r1 := command_step s m cmd status
      let r2 := fragment_step r1.1 m
      (r2.1, r1.2 ++ r2.2)

/-- The initial values of the globals in main.c: empty strings, zero counts,
`-1` selection cursors, logged-out, no reminders window. -/
def initState : AppState :=
  { s_token := "", s_username := "", s_apple_id := "", s_apple_password := "",
    s_is_logged_in := false,
    s_lists := fun _ => { id := "", title := "" },
    s_list_count := 0,
    s_reminders := fun _ => { id := "", title := "", list_id := "", completed := false },
    s_reminder_count := 0,
    s_current_list_index := -1,
    s_current_reminder_index := -1,
    s_reminders_window := false }

/-- `load_settings` (main.c lines 88–103): read the four persisted strings
into their buffers (token buffer 256 bytes, the rest 64), then derive the
logged-in flag from token non-emptiness. -/
def load_settings (token username apple_id apple_password : String) : AppState :=
  { initState with
    s_token := truncate 255 token,
    s_username := truncate 63 username,
    s_apple_id := truncate 63 apple_id,
    s_apple_password := truncate 63 apple_password,
    s_is_logged_in := (truncate 255 token).length > 0 }

/-! ### Reduction and frame lemmas -/

lemma inbox_no_cmd (s : AppState) (m : InMessage) (h : m.cmd = none) :
    inbox_received_callback s m = (s, []) := by
  unfold inbox_received_callback
  rw [h]

lemma inbox_error (s : AppState) (m : InMessage) (c : Int) (hc : m.cmd = some c)
    (hs : m.status.getD STATUS_ERROR = STATUS_ERROR) :
    inbox_received_callback s m =
      (s, [Effect.logError (m.error.getD "Unknown error"),
           Effect.showErrorDialog
             (truncate 127 ("Error: " ++ m.error.getD "Unknown error"))]) := by
  unfold inbox_received_callback
  rw [hc]
  simp [hs]

lemma inbox_ok (s : AppState) (m : InMessage) (c st : Int) (hc : m.cmd = some c)
    (hs : m.status = some st) (hne : st ≠ STATUS_ERROR) :
    inbox_received_callback s m =
      ((fragment_step (command_step s m c st).1 m).1,
       (command_step s m c st).2 ++ (fragment_step (command_step s m c st).1 m).2) := by
  unfold inbox_received_callback
  rw [hc]
  simp only [hs, Option.getD_some, if_neg hne]

lemma command_step_s_lists (s : AppState) (m : InMessage) (cmd status : Int) :
    (command_step s m cmd status).1.s_lists = s.s_lists := by
  unfold command_step
  repeat' split
  all_goals rfl

lemma command_step_reminder_fields (s : AppState) (m : InMessage) (cmd status : Int)
    (i : Int) :
    ((command_step s m cmd status).1.s_reminders i).id = (s.s_reminders i).id ∧
    ((command_step s m cmd status).1.s_reminders i).title = (s.s_reminders i).title ∧
    ((command_step s m cmd status).1.s_reminders i).list_id =
      (s.s_reminders i).list_id := by
  unfold command_step
  repeat' split
  all_goals simp only [and_self, true_and]
  all_goals first
    | exact ⟨rfl, rfl, rfl⟩
    | (refine ⟨?_, ?_, ?_⟩ <;> (dsimp only; split <;> rfl))

lemma fragment_step_s_token (s : AppState) (m : InMessage) :
    (fragment_step s m).1.s_token = s.s_token := by
  unfold fragment_step
  repeat' split
  all_goals rfl

lemma fragment_step_s_is_logged_in (s : AppState) (m : InMessage) :
    (fragment_step s m).1.s_is_logged_in = s.s_is_logged_in := by
  unfold fragment_step
  repeat' split
  all_goals rfl

lemma fragment_step_s_list_count (s : AppState) (m : InMessage) :
    (fragment_step s m).1.s_list_count = s.s_list_count := by
  unfold fragment_step
  repeat' split
  all_goals rfl

lemma fragment_step_s_reminder_count (s : AppState) (m : InMessage) :
    (fragment_step s m).1.s_reminder_count = s.s_reminder_count := by
  unfold fragment_step
  repeat' split
  all_goals rfl

lemma fragment_step_no_index (s : AppState) (m : InMessage) (h : m.index = none) :
    fragment_step s m = (s, []) := by
  unfold fragment_step
  rw [h]

lemma truncate_of_length_le (n : Nat) (s : String) (h : s.length ≤ n) :
    truncate n s = s := by
  unfold truncate
  cases s with
  | mk data =>
    rw [List.take_of_length_le h]

lemma command_step_login (s : AppState) (m : InMessage) (st : Int) (tok : String)
    (ht : m.token = some tok) :
    command_step s m CMD_LOGIN st =
      ({ s with s_token := truncate 255 tok, s_is_logged_in := true },
       [Effect.saveSettings, Effect.removeSettingsWindow,
        Effect.send (send_get_lists_request (truncate 255 tok))]) := by
  unfold command_step
  rw [ht]
  simp

lemma command_step_get_lists (s : AppState) (m : InMessage) (st c : Int)
    (hc : m.count = some c) :
    command_step s m CMD_GET_LISTS st =
      ({ s with s_list_count := if c > MAX_LISTS then MAX_LISTS else c },
       [Effect.reloadListsMenu]) := by
  unfold command_step
  rw [hc]
  simp [CMD_GET_LISTS, CMD_LOGIN]

lemma command_step_get_reminders (s : AppState) (m : InMessage) (st c : Int)
    (hc : m.count = some c) :
    command_step s m CMD_GET_REMINDERS st =
      ({ s with s_reminder_count := if c > MAX_REMINDERS then MAX_REMINDERS else c },
       if s.s_reminders_window then [Effect.reloadRemindersMenu] else []) := by
  unfold command_step
  rw [hc]
  simp [CMD_GET_REMINDERS, CMD_GET_LISTS, CMD_LOGIN]

lemma command_step_complete_valid (s : AppState) (m : InMessage)
    (hsel : 0 ≤ s.s_current_reminder_index ∧
      s.s_current_reminder_index < s.s_reminder_count) :
    command_step s m CMD_COMPLETE_REMINDER STATUS_SUCCESS =
      ({ s with s_reminders := fun j =>
          if j = s.s_current_reminder_index then
            { s.s_reminders j with completed := true }
          else s.s_reminders j },
       [Effect.removeDetailWindow, Effect.reloadRemindersMenu]) := by
  unfold command_step
  rw [if_neg (by decide), if_neg (by decide), if_neg (by decide), if_pos rfl,
    if_pos rfl, if_pos hsel]

lemma command_step_complete_invalid (s : AppState) (m : InMessage)
    (hsel : ¬(0 ≤ s.s_current_reminder_index ∧
      s.s_current_reminder_index < s.s_reminder_count)) :
    command_step s m CMD_COMPLETE_REMINDER STATUS_SUCCESS =
      (s, [Effect.removeDetailWindow, Effect.reloadRemindersMenu]) := by
  unfold command_step
  rw [if_neg (by decide), if_neg (by decide), if_neg (by decide), if_pos rfl,
    if_pos rfl, if_neg hsel]

lemma fragment_step_list (s : AppState) (m : InMessage) (idx : Int) (lid lt : String)
    (hi : m.index = some idx) (hl : m.list_id = some lid) (hlt : m.list_title = some lt)
    (hb : idx < MAX_LISTS) :
    fragment_step s m =
      ({ s with s_lists := fun j =>
          if j = idx then { id := truncate 63 lid, title := truncate 63 lt }
          else s.s_lists j },
       [Effect.reloadListsMenu]) := by
  simp only [fragment_step, hi]
  rw [if_pos ⟨by simp [hl], by simp [hlt], hb⟩]
  simp [hl, hlt]

lemma fragment_step_reminder (s : AppState) (m : InMessage) (idx : Int)
    (rid rt : String) (hi : m.index = some idx)
    (hrid : m.reminder_id = some rid) (hrt : m.reminder_title = some rt)
    (hnl : ¬(m.list_id.isSome ∧ m.list_title.isSome ∧ idx < MAX_LISTS))
    (hb : idx < MAX_REMINDERS) :
    fragment_step s m =
      ({ s with s_reminders := fun j =>
          if j = idx then
            { id := truncate 63 rid, title := truncate 127 rt,
              list_id := match m.list_id with
                         | some l => truncate 63 l
                         | none => (s.s_reminders idx).list_id,
              completed := m.completed.getD 0 != 0 }
          else s.s_reminders j },
       if s.s_reminders_window then [Effect.reloadRemindersMenu] else []) := by
  simp only [fragment_step, hi]
  rw [if_neg hnl, if_pos ⟨by simp [hrid], by simp [hrt], hb⟩]
  simp [hrid, hrt]

/-! ### Claim theorems -/

/-- C4: for every inbound GetLists outcome carrying a count C with
C > MAX_LISTS (20), the stored lists count after processing equals
MAX_LISTS, not C; likewise a GetReminders outcome with C > MAX_REMINDERS
(50) stores MAX_REMINDERS. -/
theorem claim_C4 (s : AppState) (m : InMessage) (st c : Int)
    (hs : m.status = some st) (hne : st ≠ STATUS_ERROR) (hc : m.count = some c) :
    (m.cmd = some CMD_GET_LISTS → c > MAX_LISTS →
      (inbox_received_callback s m).1.s_list_count = MAX_LISTS) ∧
    (m.cmd = some CMD_GET_REMINDERS → c > MAX_REMINDERS →
      (inbox_received_callback s m).1.s_reminder_count = MAX_REMINDERS) := by
  constructor
  · intro hcmd hgt
    rw [inbox_ok s m CMD_GET_LISTS st hcmd hs hne]
    dsimp only
    rw [fragment_step_s_list_count, command_step_get_lists s m st c hc]
    dsimp only
    rw [if_pos hgt]
  · intro hcmd hgt
    rw [inbox_ok s m CMD_GET_REMINDERS st hcmd hs hne]
    dsimp only
    rw [fragment_step_s_reminder_count, command_step_get_reminders s m st c hc]
    dsimp only
    rw [if_pos hgt]

def msgC4a : InMessage := { cmd := some 2, status := some 1, count := some 25 }

def msgC4b : InMessage := { cmd := some 3, status := some 1, count := some 99 }

theorem claim_C4_witness :
    (inbox_received_callback initState msgC4a).1.s_list_count = MAX_LISTS ∧
    (inbox_received_callback initState msgC4b).1.s_reminder_count = MAX_REMINDERS :=
  ⟨(claim_C4 initState msgC4a 1 25 rfl (by decide) rfl).1 rfl (by decide),
   (claim_C4 initState msgC4b 1 99 rfl (by decide) rfl).2 rfl (by decide)⟩

/-- C6: a GetLists or GetReminders outcome carrying a count field but no
slot-index field changes only the corresponding stored count (clamped at
capacity): the resulting state equals the old state with exactly that one
field replaced, so every slot of both tables, the token, the logged-in
flag and both selection cursors are unchanged. -/
theorem claim_C6 (s : AppState) (m : InMessage) (st c : Int)
    (hs : m.status = some st) (hne : st ≠ STATUS_ERROR)
    (hc : m.count = some c) (hni : m.index = none) :
    (m.cmd = some CMD_GET_LISTS →
      (inbox_received_callback s m).1 =
        { s with s_list_count := if c > MAX_LISTS then MAX_LISTS else c }) ∧
    (m.cmd = some CMD_GET_REMINDERS →
      (inbox_received_callback s m).1 =
        { s with s_reminder_count := if c > MAX_REMINDERS then MAX_REMINDERS else c }) := by
  constructor
  · intro hcmd
    rw [inbox_ok s m CMD_GET_LISTS st hcmd hs hne]
    dsimp only
    rw [fragment_step_no_index _ m hni]
    dsimp only
    rw [command_step_get_lists s m st c hc]
  · intro hcmd
    rw [inbox_ok s m CMD_GET_REMINDERS st hcmd hs hne]
    dsimp only
    rw [fragment_step_no_index _ m hni]
    dsimp only
    rw [command_step_get_reminders s m st c hc]

def msgC6a : InMessage := { cmd := some 2, status := some 1, count := some 3 }

def msgC6b : InMessage := { cmd := some 3, status := some 1, count := some 7 }

theorem claim_C6_witness :
    (inbox_received_callback initState msgC6a).1 =
      { initState with s_list_count := if (3 : Int) > MAX_LISTS then MAX_LISTS else 3 } ∧
    (inbox_received_callback initState msgC6b).1 =
      { initState with
        s_reminder_count := if (7 : Int) > MAX_REMINDERS then MAX_REMINDERS else 7 } :=
  ⟨(claim_C6 initState msgC6a 1 3 rfl (by decide) rfl rfl).1 rfl,
   (claim_C6 initState msgC6b 1 7 rfl (by decide) rfl rfl).2 rfl⟩

/-- C7: a CompleteReminder SUCCESS outcome (carrying no fragment) received
while no reminder selection is active (cursor negative, or at/beyond the
stored reminders count) leaves the whole state unchanged; more generally a
reminder slot changes only when the selection cursor is at least 0 and
strictly below the stored reminders count, and then only at the selected
slot. -/
theorem claim_C7 (s : AppState) (m : InMessage)
    (hcmd : m.cmd = some CMD_COMPLETE_REMINDER) (hs : m.status = some STATUS_SUCCESS)
    (hni : m.index = none) :
    ((s.s_current_reminder_index < 0 ∨
        s.s_reminder_count ≤ s.s_current_reminder_index) →
      (inbox_received_callback s m).1 = s) ∧
    (∀ i, (inbox_received_callback s m).1.s_reminders i ≠ s.s_reminders i →
      0 ≤ s.s_current_reminder_index ∧
      s.s_current_reminder_index < s.s_reminder_count ∧
      i = s.s_current_reminder_index) := by
  rw [inbox_ok s m CMD_COMPLETE_REMINDER STATUS_SUCCESS hcmd hs (by decide)]
  dsimp only
  rw [fragment_step_no_index _ m hni]
  dsimp only
  constructor
  · intro hsel
    rw [command_step_complete_invalid s m (by
      intro hcon
      obtain ⟨h1, h2⟩ := hcon
      rcases hsel with h | h <;> omega)]
  · intro i hchg
    by_cases hval : 0 ≤ s.s_current_reminder_index ∧
        s.s_current_reminder_index < s.s_reminder_count
    · rw [command_step_complete_valid s m hval] at hchg
      dsimp only at hchg
      by_cases heq : i = s.s_current_reminder_index
      · exact ⟨hval.1, hval.2, heq⟩
      · rw [if_neg heq] at hchg
        exact absurd rfl hchg
    · rw [command_step_complete_invalid s m hval] at hchg
      exact absurd rfl hchg

def msgC7 : InMessage := { cmd := some 4, status := some 1 }

theorem claim_C7_witness :
    (inbox_received_callback initState msgC7).1 = initState :=
  (claim_C7 initState msgC7 rfl rfl rfl).1 (Or.inl (by decide))

/-- C5: a Login command outcome with non-error status and a token field
stores the received token (verbatim whenever it fits the 256-byte buffer,
i.e. up to 255 characters), marks the session authenticated, and the first
emitted effects are exactly: persist the settings, dismiss the settings
view, and send a GetLists request stamped with `CMD_GET_LISTS` and the
stored token — with no other action in between. -/
theorem claim_C5 (s : AppState) (m : InMessage) (st : Int) (tok : String)
    (hcmd : m.cmd = some CMD_LOGIN) (hs : m.status = some st)
    (hne : st ≠ STATUS_ERROR) (ht : m.token = some tok) :
    (inbox_received_callback s m).1.s_token = truncate 255 tok ∧
    (tok.length ≤ 255 → (inbox_received_callback s m).1.s_token = tok) ∧
    (inbox_received_callback s m).1.s_is_logged_in = true ∧
    (inbox_received_callback s m).2.take 3 =
      [Effect.saveSettings, Effect.removeSettingsWindow,
       Effect.send (send_get_lists_request (truncate 255 tok))] := by
  rw [inbox_ok s m CMD_LOGIN st hcmd hs hne]
  dsimp only
  rw [command_step_login s m st tok ht]
  dsimp only
  refine ⟨?_, ?_, ?_, ?_⟩
  · rw [fragment_step_s_token]
  · intro hlen
    rw [fragment_step_s_token]
    exact truncate_of_length_le 255 tok hlen
  · rw [fragment_step_s_is_logged_in]
  · rfl

def msgC5 : InMessage := { cmd := some 1, status := some 1, token := some "abc123" }

theorem claim_C5_witness :
    (inbox_received_callback initState msgC5).1.s_token = "abc123" ∧
    (inbox_received_callback initState msgC5).1.s_is_logged_in = true ∧
    (inbox_received_callback initState msgC5).2.take 3 =
      [Effect.saveSettings, Effect.removeSettingsWindow,
       Effect.send (send_get_lists_request (truncate 255 "abc123"))] :=
  ⟨(claim_C5 initState msgC5 1 "abc123" rfl rfl (by decide) rfl).2.1 (by decide),
   (claim_C5 initState msgC5 1 "abc123" rfl rfl (by decide) rfl).2.2.1,
   (claim_C5 initState msgC5 1 "abc123" rfl rfl (by decide) rfl).2.2.2⟩

/-- C3 as stated is false on the code: a Login SUCCESS message whose token
field holds the empty string marks the session authenticated anyway —
starting logged out, processing `{cmd=Login, status=SUCCESS, token=""}`
yields `s_is_logged_in = true` while `s_token` is still empty, so the
logged-in flag does not equal token-non-emptiness. -/
theorem claim_C3_counterexample :
    (inbox_received_callback initState
        { cmd := some 1, status := some 1, token := some "" }).1.s_is_logged_in
      = true ∧
    (inbox_received_callback initState
        { cmd := some 1, status := some 1, token := some "" }).1.s_token = "" := by
  constructor <;> rfl

/-- C3 amended: for every inbound Login outcome with status SUCCESS, the
logged-in flag after processing is true iff a token field was present in
the message (with any value, the empty string included) or the flag was
already true, and the stored token is the message's token (buffer-
truncated) when present, unchanged otherwise.  In particular an empty
token field still authenticates the session, so the flag can diverge from
token-non-emptiness. -/
theorem claim_C3 (s : AppState) (m : InMessage)
    (hcmd : m.cmd = some CMD_LOGIN) (hs : m.status = some STATUS_SUCCESS) :
    (inbox_received_callback s m).1.s_is_logged_in =
      (m.token.isSome || s.s_is_logged_in) ∧
    (inbox_received_callback s m).1.s_token =
      (match m.token with
       | some tok => truncate 255 tok
       | none => s.s_token) := by
  rw [inbox_ok s m CMD_LOGIN STATUS_SUCCESS hcmd hs (by decide)]
  dsimp only
  rw [fragment_step_s_is_logged_in, fragment_step_s_token]
  cases htok : m.token with
  | none =>
    have hred : command_step s m CMD_LOGIN STATUS_SUCCESS = (s, []) := by
      unfold command_step
      rw [htok]
      simp
    rw [hred]
    simp
  | some tok =>
    rw [command_step_login s m STATUS_SUCCESS tok htok]
    simp

def msgC3w : InMessage := { cmd := some 1, status := some 1 }

theorem claim_C3_witness :
    (inbox_received_callback initState msgC3w).1.s_is_logged_in =
      (msgC3w.token.isSome || initState.s_is_logged_in) :=
  (claim_C3 initState msgC3w rfl rfl).1

/-- C1 as stated is false on the code: a message with `status = ERROR` but
no command field is dropped by the early `KEY_CMD` check, so no error is
surfaced at all (and, consistently with the rest of the claim, nothing is
mutated) — here a status=ERROR message carrying an error text and a
well-formed list fragment produces no state change and no effect. -/
theorem claim_C1_counterexample :
    inbox_received_callback initState
        { status := some 0, error := some "E", index := some 0,
          list_id := some "L", list_title := some "T" }
      = (initState, []) := rfl

/-- C1 amended: for every inbound message whose status field is present and
equals ERROR, processing mutates nothing (token, flag, tables, counts and
cursors all unchanged), even when the message carries a well-formed
fragment; the error text (the error field, defaulting to "Unknown error")
is surfaced iff the message also carries a command field — a status=ERROR
message without a command field is dropped silently. -/
theorem claim_C1 (s : AppState) (m : InMessage) (hs : m.status = some STATUS_ERROR) :
    (inbox_received_callback s m).1 = s ∧
    (m.cmd = none → (inbox_received_callback s m).2 = []) ∧
    (∀ c, m.cmd = some c → (inbox_received_callback s m).2 =
      [Effect.logError (m.error.getD "Unknown error"),
       Effect.showErrorDialog
         (truncate 127 ("Error: " ++ m.error.getD "Unknown error"))]) := by
  refine ⟨?_, ?_, ?_⟩
  · cases hcmd : m.cmd with
    | none => rw [inbox_no_cmd s m hcmd]
    | some c =>
      rw [inbox_error s m c hcmd (by rw [hs]; rfl)]
  · intro hcmd
    rw [inbox_no_cmd s m hcmd]
  · intro c hcmd
    rw [inbox_error s m c hcmd (by rw [hs]; rfl)]

def msgC1w : InMessage :=
  { cmd := some 2, status := some 0, error := some "boom",
    index := some 0, list_id := some "L", list_title := some "T" }

theorem claim_C1_witness :
    (inbox_received_callback initState msgC1w).1 = initState ∧
    (inbox_received_callback initState msgC1w).2 =
      [Effect.logError "boom", Effect.showErrorDialog (truncate 127 "Error: boom")] :=
  ⟨(claim_C1 initState msgC1w rfl).1,
   (claim_C1 initState msgC1w rfl).2.2 2 rfl⟩

/-- C2 as stated is false on the code: a message carrying a well-formed list
fragment (slot index 0, list id, list title) but no command field at all
is dropped whole by the early `KEY_CMD` check — nothing is written and
slot 0 stays empty. -/
theorem claim_C2_counterexample :
    inbox_received_callback initState
        { index := some 0, list_id := some "L1", list_title := some "T1" }
      = (initState, []) ∧
    ((inbox_received_callback initState
        { index := some 0, list_id := some "L1", list_title := some "T1" }).1.s_lists
        0).id = "" :=
  ⟨rfl, rfl⟩

/-- C2 amended: for every inbound message that carries a command field, a
present non-error status, and a slot-index field together with a
well-formed list payload (or, failing the list shape, a reminder
payload), the corresponding table entry at that index is written
regardless of which command the message carries; messages without a
command field, without a status field, or with error status write
nothing.  (The source checks only `index` against the upper capacity
bound; see C10 for indices below 0.) -/
theorem claim_C2 (s : AppState) (m : InMessage) (c st idx : Int)
    (hcmd : m.cmd = some c) (hs : m.status = some st) (hne : st ≠ STATUS_ERROR)
    (hidx : m.index = some idx) :
    (∀ lid lt, m.list_id = some lid → m.list_title = some lt → idx < MAX_LISTS →
      (inbox_received_callback s m).1.s_lists idx =
        { id := truncate 63 lid, title := truncate 63 lt }) ∧
    (∀ rid rt, m.reminder_id = some rid → m.reminder_title = some rt →
      ¬(m.list_id.isSome ∧ m.list_title.isSome ∧ idx < MAX_LISTS) →
      idx < MAX_REMINDERS →
      ((inbox_received_callback s m).1.s_reminders idx).id = truncate 63 rid ∧
      ((inbox_received_callback s m).1.s_reminders idx).title = truncate 127 rt ∧
      ((inbox_received_callback s m).1.s_reminders idx).completed =
        (m.completed.getD 0 != 0)) := by
  rw [inbox_ok s m c st hcmd hs hne]
  dsimp only
  constructor
  · intro lid lt hl hlt hb
    rw [fragment_step_list _ m idx lid lt hidx hl hlt hb]
    simp
  · intro rid rt hrid hrt hnl hb
    rw [fragment_step_reminder _ m idx rid rt hidx hrid hrt hnl hb]
    simp

def msgC2a : InMessage :=
  { cmd := some 4, status := some 1, index := some 0,
    list_id := some "L1", list_title := some "Groceries" }

def msgC2b : InMessage :=
  { cmd := some 2, status := some 1, index := some 1,
    reminder_id := some "R1", reminder_title := some "Milk" }

theorem claim_C2_witness :
    (inbox_received_callback initState msgC2a).1.s_lists 0 =
      { id := truncate 63 "L1", title := truncate 63 "Groceries" } ∧
    ((inbox_received_callback initState msgC2b).1.s_reminders 1).id =
      truncate 63 "R1" :=
  ⟨(claim_C2 initState msgC2a 4 1 0 rfl rfl (by decide) rfl).1
      "L1" "Groceries" rfl rfl (by decide),
   ((claim_C2 initState msgC2b 2 1 1 rfl rfl (by decide) rfl).2
      "R1" "Milk" rfl rfl (by decide) (by decide)).1⟩

/-- The 64-character list identifier used to exhibit the truncation of the
64-byte `list_id` buffer. -/
def lid64 : String := String.mk (List.replicate 64 'a')

def msgC8x : InMessage :=
  { cmd := some 3, status := some 1, index := some 0,
    reminder_id := some "R", reminder_title := some "T", list_id := some lid64 }

/-- C8 as stated is false on the code: the claim quantifies over every
list-id string, but a reminder's `list_id` buffer holds 64 bytes, so a
64-character list id survives the outgoing field set intact yet is stored
truncated to 63 characters by `snprintf` when the inbound fragment is
cached — the retrieved string differs from the original. -/
theorem claim_C8_counterexample :
    (send_get_reminders_request "tok" lid64).list_id = some lid64 ∧
    ((inbox_received_callback initState msgC8x).1.s_reminders 0).list_id ≠ lid64 := by
  constructor
  · rfl
  · decide

/-- C8 amended: for every list-id string of at most 63 characters (the
`list_id[64]` buffer capacity), encoding a GetReminders request with that
id puts the exact string in the outgoing field set, and processing an
inbound reminder fragment whose list-id field carries the same string
stores it verbatim in the cached reminder's `list_id`. -/
theorem claim_C8 (tok lid : String) (hlen : lid.length ≤ 63)
    (s : AppState) (m : InMessage) (st idx : Int) (rid rt : String)
    (hcmd : m.cmd = some CMD_GET_REMINDERS) (hs : m.status = some st)
    (hne : st ≠ STATUS_ERROR) (hidx : m.index = some idx)
    (hrid : m.reminder_id = some rid) (hrt : m.reminder_title = some rt)
    (hl : m.list_id = some lid) (hnlt : m.list_title = none)
    (hb : idx < MAX_REMINDERS) :
    (send_get_reminders_request tok lid).list_id = some lid ∧
    ((inbox_received_callback s m).1.s_reminders idx).list_id = lid := by
  constructor
  · rfl
  · rw [inbox_ok s m CMD_GET_REMINDERS st hcmd hs hne]
    dsimp only
    rw [fragment_step_reminder _ m idx rid rt hidx hrid hrt (by simp [hnlt]) hb]
    dsimp only
    rw [if_pos rfl]
    simp only [hl]
    exact truncate_of_length_le 63 lid hlen

def msgC8w : InMessage :=
  { cmd := some 3, status := some 1, index := some 2,
    reminder_id := some "R1", reminder_title := some "Milk",
    list_id := some "LIST-7" }

theorem claim_C8_witness :
    (send_get_reminders_request "tok" "LIST-7").list_id = some "LIST-7" ∧
    ((inbox_received_callback initState msgC8w).1.s_reminders 2).list_id =
      "LIST-7" :=
  claim_C8 "tok" "LIST-7" (by decide) initState msgC8w 1 2 "R1" "Milk"
    rfl rfl (by decide) rfl rfl rfl rfl rfl (by decide)

def msgC9x : InMessage :=
  { cmd := some 1, error := some "boom",
    index := some 0, list_id := some "L", list_title := some "T" }

/-- C9 as stated is false on the code: the missing status field does default
to ERROR and nothing is mutated, but the surfaced message is not always
"Unknown error" — when the status-less message itself carries an error
text field, that text is surfaced instead ("boom" here). -/
theorem claim_C9_counterexample :
    (inbox_received_callback initState msgC9x).1 = initState ∧
    (inbox_received_callback initState msgC9x).2 =
      [Effect.logError "boom", Effect.showErrorDialog (truncate 127 "Error: boom")] :=
  ⟨rfl, rfl⟩

/-- C9 amended: every inbound message containing a command field but no
status field is treated exactly as a remote error (the missing status
defaults to ERROR): the surfaced error text is the message's error field
when present and "Unknown error" otherwise, and no session or cache state
is mutated, even when the message carries a well-formed fragment payload
— so a pure fragment message must carry an explicit non-error status to
take effect. -/
theorem claim_C9 (s : AppState) (m : InMessage) (c : Int)
    (hcmd : m.cmd = some c) (hs : m.status = none) :
    (inbox_received_callback s m).1 = s ∧
    (inbox_received_callback s m).2 =
      [Effect.logError (m.error.getD "Unknown error"),
       Effect.showErrorDialog
         (truncate 127 ("Error: " ++ m.error.getD "Unknown error"))] := by
  rw [inbox_error s m c hcmd (by rw [hs]; rfl)]
  exact ⟨rfl, rfl⟩

def msgC9w : InMessage :=
  { cmd := some 2, index := some 0, list_id := some "L", list_title := some "T" }

theorem claim_C9_witness :
    (inbox_received_callback initState msgC9w).1 = initState ∧
    (inbox_received_callback initState msgC9w).2 =
      [Effect.logError "Unknown error",
       Effect.showErrorDialog (truncate 127 "Error: Unknown error")] :=
  claim_C9 initState msgC9w 2 rfl rfl

def msgC10 : InMessage :=
  { cmd := some 2, status := some 1, index := some (-1),
    list_id := some "L", list_title := some "T" }

/-- C10 describes the intended bounds discipline, but the code checks only
the upper bound `index < MAX_LISTS` before writing: a list fragment with
slot index -1 passes the guard and the C program executes
`snprintf(s_lists[-1].id, ...)`, a write outside the valid slot range
0..MAX_LISTS-1 (an out-of-bounds array write, undefined behavior).  In
the embedding, where the array is a total map over `Int`, the entry at
index -1 — initially empty — is overwritten by the fragment payload. -/
theorem claim_C10_failing :
    (initState.s_lists (-1)).id = "" ∧
    ((inbox_received_callback initState msgC10).1.s_lists (-1)).id = "L" := by
  constructor
  · rfl
  · decide

end PebbleICloud
